import Mathlib

/-!
# Verification of the UltraGrid Vulkan display core

A shallow embedding of `src/video_display/vulkan_display.cpp`,
`vulkan_transfer_image.cpp`, `vulkan_context.cpp` and their headers.

Modelling conventions:
* `uint32_t` quantities are modelled as `Nat`; subtractions that cannot
  underflow in the source are plain `Nat` subtraction.
* Vulkan enum values (`vk::Format`, `VkFormat`) are modelled by their
  numeric codes (`Nat`); `vk::PresentModeKHR` is a small inductive.
* The `double` arithmetic of `update_render_area_viewport_scissor` is
  modelled exactly over `ℚ`; `std::round` on the non-negative values this
  code produces coincides with Mathlib's `round` (floor of `x + 1/2`).
* Blocking queue operations (`wait_dequeue`, `wait_enqueue`) are modelled
  on the queue contents visible at the call with no concurrent activity by
  the other thread; an operation that would block in that situation is
  a distinguished `blocked` outcome.
* C++ exceptions (`vulkan_display_exception`) become error outcomes
  carrying the thrown message; a failed C `assert` becomes an error
  outcome as well (in the source it aborts the process).
* GPU-side effects are tracked observationally: generation counters count
  how many times `sampler`, `descriptor_set_layout`, `pipeline`,
  descriptor sets and the swapchain have been (re)created, and
  `wait_idle_count` counts `queue.waitIdle()` calls.
-/

namespace VulkanDisplay

/-- `vk::Extent2D` — a pair of `uint32_t` dimensions. -/
structure Extent2D where
  width : Nat
  height : Nat
deriving DecidableEq, Repr

/-- `vulkan_display::image_description` (vulkan_transfer_image.h):
`vk::Extent2D size` plus a `vk::Format format` (numeric code, `0` is
`VK_FORMAT_UNDEFINED`).  `operator==` compares width, height and format. -/
structure image_description where
  size : Extent2D
  format : Nat
deriving DecidableEq, Repr

/-- `VK_FORMAT_UNDEFINED`. -/
def vk_format_undefined : Nat := 0

/-- `vulkan_display::is_yCbCr_format` (vulkan_display.h): the numeric
format code lies between `VK_FORMAT_G8B8G8R8_422_UNORM` (1000156000) and
`VK_FORMAT_G16_B16_R16_3PLANE_444_UNORM` (1000156033). -/
def is_yCbCr_format (format : Nat) : Bool :=
  1000156000 ≤ format && format ≤ 1000156033

/-- `vulkan_display::window_parameters` (vulkan_context.hpp):
width/height with structural equality. -/
structure window_parameters where
  width : Nat
  height : Nat
deriving DecidableEq, Repr

/-- `window_parameters::is_minimized` (vulkan_context.hpp, lines 78-80):
`width * height == 0`. -/
def window_parameters.is_minimized (p : window_parameters) : Bool :=
  p.width * p.height == 0

/-- `vulkan_display_detail::render_area` (vulkan_display.h). -/
structure render_area where
  x : Nat
  y : Nat
  width : Nat
  height : Nat
deriving DecidableEq, Repr

/-- `update_render_area_viewport_scissor` (vulkan_display.cpp, lines
83-112), restricted to the `render_area` output; the viewport and scissor
are copies of the same rectangle (floats resp. int offsets).  The two
`double` aspect ratios and the products fed to `std::round` are computed
exactly in `ℚ`. -/
def update_render_area_viewport_scissor
    (window_size transfer_image_size : Extent2D) : render_area :=
  let wnd_aspect : ℚ := (window_size.width : ℚ) / (window_size.height : ℚ)
  let img_aspect : ℚ :=
    (transfer_image_size.width : ℚ) / (transfer_image_size.height : ℚ)
  if img_aspect < wnd_aspect then
    let height := window_size.height
    let width := (round ((window_size.height : ℚ) * img_aspect)).toNat
    { x := (window_size.width - width) / 2, y := 0,
      width := width, height := height }
  else
    let width := window_size.width
    let height := (round ((window_size.width : ℚ) / img_aspect)).toNat
    { x := 0, y := (window_size.height - height) / 2,
      width := width, height := height }

/-- `vk::PresentModeKHR`. -/
inductive PresentModeKHR where
  | eImmediate
  | eMailbox
  | eFifo
  | eFifoRelaxed
  | eSharedDemandRefresh
  | eSharedContinuousRefresh
deriving DecidableEq, Repr

/-- `get_present_mode` (vulkan_display.cpp, lines 128-134): the preferred
present mode as a function of the two configuration booleans. -/
def get_present_mode (vsync_enabled tearing_permitted : Bool) :
    PresentModeKHR :=
  if vsync_enabled then
    if tearing_permitted then .eFifoRelaxed else .eFifo
  else
    if tearing_permitted then .eImmediate else .eMailbox

/-- `vulkan_context::get_present_mode` (vulkan_context.cpp, lines
350-371): pick `preferred` if the surface supports it, otherwise the
alternative (`eMailbox` for `eImmediate`, `eFifo` for everything else) if
supported, otherwise `modes[0]`.  The source indexes `modes[0]`
unconditionally (the Vulkan spec guarantees a non-empty list); the model
totalises that with `headD preferred`, and the theorems only use it on
non-empty lists. -/
def context_get_present_mode (modes : List PresentModeKHR)
    (preferred : PresentModeKHR) : PresentModeKHR :=
  if preferred ∈ modes then preferred
  else
    let alternative := if preferred = .eImmediate then
        PresentModeKHR.eMailbox
      else
        PresentModeKHR.eFifo
    if alternative ∈ modes then alternative
    else modes.headD preferred

/-- `VK_API_VERSION_1_0` = `VK_MAKE_API_VERSION(0, 1, 0, 0)`. -/
def VK_API_VERSION_1_0 : Nat := 1 <<< 22

/-- `VK_API_VERSION_1_1` = `VK_MAKE_API_VERSION(0, 1, 1, 0)`. -/
def VK_API_VERSION_1_1 : Nat := (1 <<< 22) + (1 <<< 12)

/-- `filled_img_max_count` (vulkan_display.h, line 14). -/
def filled_img_max_count : Nat := 1

/-- The capacity of `filled_img_queue`
(`concurrent_queue<image> filled_img_queue{detail::filled_img_max_count}`,
vulkan_display.h: a `moodycamel::BlockingReaderWriterCircularBuffer` of
capacity `filled_img_max_count`). -/
def filled_img_queue_capacity : Nat := filled_img_max_count

/-- Sentinel `swapchain_image_out_of_date = UINT32_MAX`
(vulkan_context.hpp, line 96). -/
def swapchain_image_out_of_date : Nat := 4294967295

/-- Sentinel `swapchain_image_timeout = UINT32_MAX - 1`
(vulkan_context.hpp, line 97). -/
def swapchain_image_timeout : Nat := 4294967294

/-- The observable state of a `vulkan_display` object, projected onto the
fields the verified claims are about.  Transfer images are identified by
their `uint32_t` id; the queues are lists of ids (head = front of the
FIFO).  `fence_signaled` is the set of images whose `is_available_fence`
is currently in the signaled state (fences are created signaled by
`transfer_image::init`); `fence_set` is the set with `fence_set == true`.
The `*_gen` fields count (re)creations of the corresponding GPU objects,
`wait_idle_count` counts `queue.waitIdle()` calls. -/
structure DisplayState where
  available_images : List Nat
  available_img_queue : List Nat
  filled_img_queue : List Nat
  fence_set : List Nat
  fence_signaled : List Nat
  descriptions : Nat → image_description
  current_image_description : image_description
  sampler_gen : Nat
  descriptor_set_layout_gen : Nat
  pipeline_gen : Nat
  descriptor_sets_gen : Nat
  wait_idle_count : Nat
  swapchain_gen : Nat
  window_size : Extent2D
  area : render_area

/-- `acquire_transfer_image` (vulkan_display.cpp, lines 114-126): pop the
back of the producer-local `available_images` vector when non-empty,
otherwise `available_img_queue.wait_dequeue(result)` — an *unbounded*
blocking dequeue, which with no concurrent enqueue blocks forever on an
empty queue (`blocked`).  No branch allocates a new image. -/
inductive AcquireTransferResult where
  | fromLocal (img : Nat) (rest : List Nat)
  | fromQueue (img : Nat) (rest : List Nat)
  | blocked
deriving DecidableEq, Repr

def acquire_transfer_image (available_images : List Nat)
    (available_img_queue : List Nat) : AcquireTransferResult :=
  match available_images.getLast? with
  | some img => .fromLocal img available_images.dropLast
  | none =>
    match available_img_queue with
    | [] => .blocked
    | img :: rest => .fromQueue img rest

/-- Error message thrown by `acquire_image` for a YCbCr format without
backend support (vulkan_display.cpp, lines 525-528). -/
def yCbCr_error_msg (vulkan_version : Nat) : String :=
  "YCbCr formats are not supported." ++
    (if vulkan_version == VK_API_VERSION_1_0 then
      "\nVulkan 1.1 or higher is needed for YCbCr support."
    else "")

/-- Outcome of `vulkan_display::acquire_image`. -/
inductive AcquireOutcome where
  | ok (img : Nat) (s : DisplayState)
  | blocked
  | err (msg : String)

/-- The two `assert`s guarding `acquire_image`
(vulkan_display.cpp, lines 521-522). -/
def acquire_image_asserts (description : image_description) : Prop :=
  description.size.width * description.size.height ≠ 0 ∧
    description.format ≠ vk_format_undefined

instance (d : image_description) : Decidable (acquire_image_asserts d) :=
  inferInstanceAs (Decidable (_ ∧ _))

/-- The tail of `acquire_image` after an image was obtained
(vulkan_display.cpp, lines 534-551): if `fence_set`, wait on
`is_available_fence` (blocking until the GPU signals it — afterwards the
fence is in the signaled state; `fence_set` is not cleared); then, if the
image's description differs from the requested one,
`transfer_image::create` reallocates it with the new description. -/
def acquire_image_finish (s : DisplayState) (img : Nat)
    (description : image_description) : AcquireOutcome :=
  let s := if img ∈ s.fence_set then
      { s with fence_signaled :=
          if img ∈ s.fence_signaled then s.fence_signaled
          else img :: s.fence_signaled }
    else s
  let s := if s.descriptions img ≠ description then
      { s with descriptions :=
          fun i => if i = img then description else s.descriptions i }
    else s
  .ok img s

/-- `vulkan_display::acquire_image` (vulkan_display.cpp, lines 520-553):
assert a non-degenerate description; reject YCbCr formats when the
context lacks YCbCr support (mentioning Vulkan 1.1 when the instance is
Vulkan 1.0); obtain a transfer image from the local list or the
cross-thread queue; wait for its fence if `fence_set`; recreate it if the
description changed. -/
def acquire_image (yCbCr_supported : Bool) (vulkan_version : Nat)
    (s : DisplayState) (description : image_description) : AcquireOutcome :=
  if ¬ acquire_image_asserts description then
    .err "assertion failed"
  else if !yCbCr_supported && is_yCbCr_format description.format then
    .err (yCbCr_error_msg vulkan_version)
  else
    match acquire_transfer_image s.available_images s.available_img_queue with
    | .blocked => .blocked
    | .fromLocal img rest =>
      acquire_image_finish { s with available_images := rest } img description
    | .fromQueue img rest =>
      acquire_image_finish { s with available_img_queue := rest } img
        description

/-- Outcome of `vulkan_display::queue_image`: either the call returns
(with the `discarded` out-parameter and the successor state) or it blocks
in `filled_img_queue.wait_enqueue` because the circular buffer is full
and no display dequeues. -/
inductive QueueImageOutcome where
  | done (discarded : Bool) (s : DisplayState)
  | blocked

/-- `vulkan_display::queue_image` (vulkan_display.cpp, lines 564-575):
if `discardable` and `filled_img_queue.size_approx() > filled_img_max_count`,
push the image back on the producer-local available list and report it
discarded; otherwise `wait_enqueue` into the capacity-1 circular buffer,
which blocks when the buffer is full. -/
def queue_image (s : DisplayState) (img : Nat) (discardable : Bool) :
    QueueImageOutcome :=
  if discardable && filled_img_max_count < s.filled_img_queue.length then
    .done true { s with available_images := s.available_images ++ [img] }
  else
    if s.filled_img_queue.length < filled_img_queue_capacity then
      .done false { s with filled_img_queue := s.filled_img_queue ++ [img] }
    else
      .blocked

/-- `discard_filled_image` (vulkan_display.cpp, lines 136-144):
`try_dequeue` one image from the filled queue and, on success, enqueue it
into the available queue.  (`wait_enqueue` into the available queue never
blocks: its capacity is at least the number of transfer images.) -/
def discard_filled_image (s : DisplayState) : DisplayState :=
  match s.filled_img_queue with
  | [] => s
  | img :: rest =>
    { s with filled_img_queue := rest,
             available_img_queue := s.available_img_queue ++ [img] }

/-- `vulkan_display::is_image_description_supported`
(vulkan_display.cpp, lines 467-475): report `false` for a YCbCr format
when the backend lacks YCbCr support, otherwise defer to the GPU
capability query `transfer_image::is_image_description_supported`
(modelled as the oracle `gpu_query`).  Always returns a boolean; no
exception escapes. -/
def is_image_description_supported (yCbCr_supported : Bool)
    (gpu_query : image_description → Bool)
    (description : image_description) : Bool :=
  if !yCbCr_supported && is_yCbCr_format description.format then
    false
  else
    gpu_query description

/-- `vulkan_context::get_window_parameters` (vulkan_context.hpp):
the context's tracked window size as `window_parameters`. -/
def DisplayState.get_window_parameters (s : DisplayState) :
    window_parameters :=
  ⟨s.window_size.width, s.window_size.height⟩

/-- `vulkan_display::window_parameters_changed`
(vulkan_display.cpp, lines 687-695): when the new parameters differ from
the context's current ones and are not the minimized sentinel
(`width * height != 0`), recreate the swapchain against them and
recompute the render area; otherwise do nothing.  (The clamping of the
stored window size to the surface capabilities inside
`create_swap_chain` is an external-collaborator effect and is elided.) -/
def window_parameters_changed (s : DisplayState)
    (new_parameters : window_parameters) : DisplayState :=
  if new_parameters ≠ s.get_window_parameters ∧
      new_parameters.width * new_parameters.height ≠ 0 then
    { s with
      swapchain_gen := s.swapchain_gen + 1,
      window_size := ⟨new_parameters.width, new_parameters.height⟩,
      area := update_render_area_viewport_scissor
        ⟨new_parameters.width, new_parameters.height⟩
        s.current_image_description.size }
  else s

/-- Outcome of `vulkan_display::display_queued_image`: the `displayed`
out-parameter (`notDisplayed` for the early returns, `displayed` for a
presented frame) or a thrown `vulkan_display_exception`. -/
inductive DisplayOutcome where
  | notDisplayed
  | displayed
  | fatalError (msg : String)
deriving DecidableEq, Repr

/-- `vulkan_context::recreate_swapchain` (vulkan_context.cpp, lines
486-501), observationally: the swapchain is rebuilt (generation bump) and
the tracked window size becomes the passed parameters.  (The clamp to
surface capabilities and the `device.waitIdle()` drain are
external-collaborator effects not tracked by the model.) -/
def recreate_swapchain (s : DisplayState) (parameters : window_parameters) :
    DisplayState :=
  { s with swapchain_gen := s.swapchain_gen + 1,
           window_size := ⟨parameters.width, parameters.height⟩ }

/-- The reconfiguration step of `display_queued_image`
(vulkan_display.cpp, lines 600-615): when the dequeued image's
description differs from `current_image_description`, and its *format*
differs, wait for the queue to go idle and rebuild the texture sampler,
descriptor-set layout, graphics pipeline and descriptor sets; in either
case update `current_image_description` and recompute the render area,
viewport and scissor from the current window parameters. -/
def reconfigure_step (s : DisplayState) (desc : image_description) :
    DisplayState :=
  if desc ≠ s.current_image_description then
    let s :=
      if desc.format ≠ s.current_image_description.format then
        { s with wait_idle_count := s.wait_idle_count + 1,
                 sampler_gen := s.sampler_gen + 1,
                 descriptor_set_layout_gen := s.descriptor_set_layout_gen + 1,
                 pipeline_gen := s.pipeline_gen + 1,
                 descriptor_sets_gen := s.descriptor_sets_gen + 1 }
      else s
    { s with current_image_description := desc,
             area := update_render_area_viewport_scissor s.window_size
               desc.size }
  else s

/-- The tail of `display_queued_image` after a swapchain image was
acquired (vulkan_display.cpp, lines 638-684): `prepare_for_rendering` and
command recording (GPU-side, untracked), `fence_set := true`, the fence is
reset (un-signaled) and passed to `queue.submit`, the frame is presented
(a success or recoverable out-of-date/suboptimal present result is
assumed — any other result throws in the source), `displayed` is set, and
the transfer image is enqueued into the available queue. -/
def submit_and_present (s : DisplayState) (img : Nat) :
    DisplayOutcome × DisplayState :=
  let s := { s with
    fence_set := if img ∈ s.fence_set then s.fence_set else img :: s.fence_set,
    fence_signaled := s.fence_signaled.erase img }
  (.displayed, { s with available_img_queue := s.available_img_queue ++ [img] })

/-- One recovery step of the retry loop (vulkan_display.cpp, lines
630-634): `context.recreate_swapchain(window_parameters, render_pass)`
followed by `update_render_area_viewport_scissor` against the freshly
polled window parameters and the current image size. -/
def recreate_and_update (s : DisplayState) (wp : window_parameters) :
    DisplayState :=
  let s := recreate_swapchain s wp
  let a := update_render_area_viewport_scissor ⟨wp.width, wp.height⟩
    s.current_image_description.size
  { s with area := a }

/-- The swapchain-acquisition retry loop of `display_queued_image`
(vulkan_display.cpp, lines 616-637).  `polls k` is the window parameters
returned by the `k`-th `window->get_window_parameters()` poll of this
call and `acq k` the image index returned by the `k`-th
`acquire_next_swapchain_image`; `attempt` is the running
`swapchain_recreation_attempt` counter.  While the acquired index is the
out-of-date or timeout sentinel: increment the counter and throw
`"Cannot acquire swapchain image"` once it exceeds 3; bail out (draining
one filled image) if the window became minimized; otherwise recreate the
swapchain, recompute the render area against the freshly polled window
parameters, and retry. -/
def acquire_swapchain_loop (polls : Nat → window_parameters)
    (acq : Nat → Nat) (s : DisplayState) (img : Nat) (image_id : Nat)
    (attempt : Nat) : DisplayOutcome × DisplayState :=
  if image_id = swapchain_image_out_of_date ∨
      image_id = swapchain_image_timeout then
    if h : 3 < attempt + 1 then
      (.fatalError "Cannot acquire swapchain image", s)
    else
      let wp := polls (attempt + 1)
      if wp.is_minimized then
        (.notDisplayed, discard_filled_image s)
      else
        acquire_swapchain_loop polls acq (recreate_and_update s wp) img
          (acq (attempt + 1)) (attempt + 1)
  else
    submit_and_present s img
termination_by 4 - attempt
decreasing_by simp_wf; omega

/-- `vulkan_display::display_queued_image`
(vulkan_display.cpp, lines 577-685): report not-displayed and drain one
filled image if the window is minimized; dequeue a filled image with a
50 ms timeout (an empty queue with no concurrent enqueue yields the
timeout), returning not-displayed on timeout; run the user preprocess
callback (untracked); reconfigure if the description changed; acquire a
swapchain image with the bounded retry loop; record, submit, present and
hand the image back to the available queue. -/
def display_queued_image (polls : Nat → window_parameters)
    (acq : Nat → Nat) (s : DisplayState) : DisplayOutcome × DisplayState :=
  let wp := polls 0
  if wp.is_minimized then
    (.notDisplayed, discard_filled_image s)
  else
    match s.filled_img_queue with
    | [] => (.notDisplayed, s)
    | img :: rest =>
      let s' := { s with filled_img_queue := rest }
      let desc := s'.descriptions img
      let s' := reconfigure_step s' desc
      acquire_swapchain_loop polls acq s' img (acq 0) 0

/-- A display state with empty queues and a 1920×1080 window, used to
instantiate theorems at concrete inputs. -/
def sample_state : DisplayState where
  available_images := []
  available_img_queue := []
  filled_img_queue := []
  fence_set := []
  fence_signaled := []
  descriptions := fun _ => ⟨⟨640, 480⟩, 100⟩
  current_image_description := ⟨⟨640, 480⟩, 100⟩
  sampler_gen := 0
  descriptor_set_layout_gen := 0
  pipeline_gen := 0
  descriptor_sets_gen := 0
  wait_idle_count := 0
  swapchain_gen := 0
  window_size := ⟨1920, 1080⟩
  area := ⟨0, 0, 0, 0⟩

/-- `sample_state` with image 7 sitting in the filled queue, its fence
signaled (as after `transfer_image::init`). -/
def c1_state : DisplayState :=
  { sample_state with filled_img_queue := [7], fence_signaled := [7] }

/-- `sample_state` with image 5 on the producer-local available list and
its `fence_set` flag raised (a previous render submitted it). -/
def c1w_state : DisplayState :=
  { sample_state with available_images := [5], fence_set := [5] }

/-- The state `acquire_image` produces from `c1w_state`: image 5 taken
off the local list, its fence waited on (hence signaled). -/
def c1w_post : DisplayState :=
  { sample_state with
    available_images := [], fence_set := [5], fence_signaled := [5] }

/-- `sample_state` with image 2 in the filled queue carrying a
1280×720 description — same format as the current 640×480 one, different
size. -/
def c4_state : DisplayState :=
  { sample_state with
    filled_img_queue := [2],
    descriptions := fun _ => ⟨⟨1280, 720⟩, 100⟩ }

/-- C6: for every window extent `W` and image extent `I`, the render-area
computation compares aspect ratios: when the window is wider than the
image aspect the rectangle has height `W.height`, width
`round(W.height * I.width / I.height)` and is centered horizontally
(`x = (W.width - width) / 2`, `y = 0`); otherwise it has width `W.width`,
height `round(W.width * I.height / I.width)` and is centered vertically.
In particular for window 1920×1080 and image 640×480 the rectangle is
1440×1080 at `x = 240`, `y = 0`. -/
theorem render_area_aspect_fit :
    (∀ W I : Extent2D,
      ((I.width : ℚ) / I.height < (W.width : ℚ) / W.height →
        (update_render_area_viewport_scissor W I).height = W.height ∧
        (update_render_area_viewport_scissor W I).width =
          (round ((W.height : ℚ) * I.width / I.height)).toNat ∧
        (update_render_area_viewport_scissor W I).x =
          (W.width - (update_render_area_viewport_scissor W I).width) / 2 ∧
        (update_render_area_viewport_scissor W I).y = 0) ∧
      (¬ (I.width : ℚ) / I.height < (W.width : ℚ) / W.height →
        (update_render_area_viewport_scissor W I).width = W.width ∧
        (update_render_area_viewport_scissor W I).height =
          (round ((W.width : ℚ) * I.height / I.width)).toNat ∧
        (update_render_area_viewport_scissor W I).x = 0 ∧
        (update_render_area_viewport_scissor W I).y =
          (W.height - (update_render_area_viewport_scissor W I).height) / 2)) ∧
    update_render_area_viewport_scissor ⟨1920, 1080⟩ ⟨640, 480⟩ =
      { x := 240, y := 0, width := 1440, height := 1080 } := by
  constructor
  · intro W I
    constructor
    · intro h
      refine ⟨?_, ?_, ?_, ?_⟩ <;>
        simp only [update_render_area_viewport_scissor, if_pos h] <;>
        rw [← mul_div_assoc]
    · intro h
      refine ⟨?_, ?_, ?_, ?_⟩ <;>
        simp only [update_render_area_viewport_scissor, if_neg h] <;>
        rw [div_div_eq_mul_div]
  · norm_num [update_render_area_viewport_scissor, round_ofNat,
      render_area.mk.injEq]
    decide

/-- Witness for C6 at window 1920×1080, image 640×480 (the wider-than
branch). -/
theorem render_area_aspect_fit_witness :
    ((640 : ℚ) / 480 < (1920 : ℚ) / 1080) ∧
    (update_render_area_viewport_scissor ⟨1920, 1080⟩ ⟨640, 480⟩).height =
      1080 :=
  ⟨by norm_num,
    ((render_area_aspect_fit.1 ⟨1920, 1080⟩ ⟨640, 480⟩).1 (by norm_num)).1⟩

/-- C9: the preferred present mode is a pure function of `(vsync,
tearing_permitted)` — FIFO / relaxed-FIFO / mailbox / immediate — and
`vulkan_context::get_present_mode` falls back from the preferred mode
first to the opposite-family alternate (`eMailbox` for `eImmediate`,
`eFifo` for everything else) and otherwise to the first available
mode. -/
theorem present_mode_selection :
    (get_present_mode true false = .eFifo ∧
     get_present_mode true true = .eFifoRelaxed ∧
     get_present_mode false false = .eMailbox ∧
     get_present_mode false true = .eImmediate) ∧
    ∀ (modes : List PresentModeKHR) (preferred : PresentModeKHR),
      (preferred ∈ modes →
        context_get_present_mode modes preferred = preferred) ∧
      (preferred ∉ modes →
        ((if preferred = .eImmediate then PresentModeKHR.eMailbox
          else PresentModeKHR.eFifo) ∈ modes →
          context_get_present_mode modes preferred =
            (if preferred = .eImmediate then PresentModeKHR.eMailbox
             else PresentModeKHR.eFifo)) ∧
        ((if preferred = .eImmediate then PresentModeKHR.eMailbox
          else PresentModeKHR.eFifo) ∉ modes →
          ∀ m ms, modes = m :: ms →
            context_get_present_mode modes preferred = m)) := by
  refine ⟨by decide, ?_⟩
  intro modes preferred
  refine ⟨fun h => by simp [context_get_present_mode, h], fun h => ⟨?_, ?_⟩⟩
  · intro h2
    simp [context_get_present_mode, h, h2]
  · intro h2 m ms hm
    subst hm
    simp only [List.mem_cons, not_or] at h h2
    simp [context_get_present_mode, h.1, h.2, h2.1, h2.2]

/-- Witness for C9: a supported preferred mode is chosen as-is. -/
theorem present_mode_selection_witness :
    PresentModeKHR.eFifo ∈ [PresentModeKHR.eFifo] ∧
    context_get_present_mode [PresentModeKHR.eFifo] PresentModeKHR.eFifo =
      PresentModeKHR.eFifo :=
  ⟨by decide,
    (present_mode_selection.2 [PresentModeKHR.eFifo] PresentModeKHR.eFifo).1
      (by decide)⟩

/-- C7: `window_parameters_changed` with parameters equal to the current
ones, or with minimized parameters (zero area), changes nothing — no
swapchain recreation, no render-area recompute; parameters that differ
and are not minimized recreate the swapchain and recompute the render
area. -/
theorem window_parameters_changed_cases (s : DisplayState)
    (p : window_parameters) :
    (p = s.get_window_parameters → window_parameters_changed s p = s) ∧
    (p.is_minimized = true → window_parameters_changed s p = s) ∧
    (p ≠ s.get_window_parameters → p.is_minimized = false →
      (window_parameters_changed s p).swapchain_gen = s.swapchain_gen + 1 ∧
      (window_parameters_changed s p).area =
        update_render_area_viewport_scissor ⟨p.width, p.height⟩
          s.current_image_description.size ∧
      (window_parameters_changed s p).window_size =
        ⟨p.width, p.height⟩) := by
  refine ⟨?_, ?_, ?_⟩
  · intro h
    simp [window_parameters_changed, h]
  · intro h
    have h0 : p.width * p.height = 0 := by
      simpa [window_parameters.is_minimized] using h
    simp [window_parameters_changed, h0]
  · intro h1 h2
    have h0 : p.width * p.height ≠ 0 := by
      simpa [window_parameters.is_minimized] using h2
    simp [window_parameters_changed, h1, h0]

/-- Witness for C7: a real resize of `sample_state` recreates the
swapchain once. -/
theorem window_parameters_changed_cases_witness :
    (⟨1280, 720⟩ : window_parameters) ≠ sample_state.get_window_parameters ∧
    (window_parameters_changed sample_state ⟨1280, 720⟩).swapchain_gen =
      sample_state.swapchain_gen + 1 :=
  ⟨by decide,
    (((window_parameters_changed_cases sample_state ⟨1280, 720⟩).2.2
      (by decide) (by decide))).1⟩

/-- C10: `acquire_image` asserts that the requested description has
non-zero area and a defined (non-`VK_FORMAT_UNDEFINED`) pixel format;
outside this precondition the call trips the assertion, so the zero-sized
description used as the minimized-window sentinel is never a valid
argument. -/
theorem acquire_image_nonzero_area_precondition (yCbCr_supported : Bool)
    (vulkan_version : Nat) (s : DisplayState) (d : image_description) :
    (¬ acquire_image_asserts d →
      acquire_image yCbCr_supported vulkan_version s d =
        .err "assertion failed") ∧
    (acquire_image_asserts d ↔
      d.size.width * d.size.height ≠ 0 ∧ d.format ≠ vk_format_undefined) ∧
    (d.size.width * d.size.height = 0 → ¬ acquire_image_asserts d) := by
  refine ⟨?_, Iff.rfl, ?_⟩
  · intro h
    simp [acquire_image, h]
  · intro h hc
    exact hc.1 h

/-- Witness for C10 at the minimized-window sentinel description
`0 × 1080`. -/
theorem acquire_image_nonzero_area_precondition_witness :
    ¬ acquire_image_asserts ⟨⟨0, 1080⟩, 100⟩ ∧
    acquire_image true VK_API_VERSION_1_1 sample_state ⟨⟨0, 1080⟩, 100⟩ =
      .err "assertion failed" :=
  ⟨by decide,
    (acquire_image_nonzero_area_precondition true VK_API_VERSION_1_1
      sample_state ⟨⟨0, 1080⟩, 100⟩).1 (by decide)⟩

/-- C8: when a YCbCr-family format is requested but the backend lacks
YCbCr sampling support, `acquire_image` throws a synchronous
`vulkan_display_exception` naming the (YCbCr) format family and — when
the instance is Vulkan 1.0 — noting that Vulkan 1.1 or higher is needed,
while `is_image_description_supported` simply reports the description as
unsupported (a boolean, no exception). -/
theorem unsupported_yCbCr_rejection (vulkan_version : Nat)
    (s : DisplayState) (d : image_description)
    (gpu_query : image_description → Bool)
    (ha : acquire_image_asserts d)
    (hy : is_yCbCr_format d.format = true) :
    acquire_image false vulkan_version s d =
      .err (yCbCr_error_msg vulkan_version) ∧
    yCbCr_error_msg VK_API_VERSION_1_0 =
      "YCbCr formats are not supported.\nVulkan 1.1 or higher is needed for YCbCr support." ∧
    (vulkan_version ≠ VK_API_VERSION_1_0 →
      yCbCr_error_msg vulkan_version = "YCbCr formats are not supported.") ∧
    is_image_description_supported false gpu_query d = false := by
  refine ⟨?_, ?_, ?_, ?_⟩
  · simp [acquire_image, ha, hy]
  · rfl
  · intro h
    simp [yCbCr_error_msg, h]
  · simp [is_image_description_supported, hy]

/-- Witness for C8 at `VK_FORMAT_G8B8G8R8_422_UNORM` (code 1000156000). -/
theorem unsupported_yCbCr_rejection_witness :
    acquire_image_asserts ⟨⟨640, 480⟩, 1000156000⟩ ∧
    is_yCbCr_format 1000156000 = true ∧
    acquire_image false VK_API_VERSION_1_1 sample_state
      ⟨⟨640, 480⟩, 1000156000⟩ = .err (yCbCr_error_msg VK_API_VERSION_1_1) :=
  ⟨by decide, by decide,
    (unsupported_yCbCr_rejection VK_API_VERSION_1_1 sample_state
      ⟨⟨640, 480⟩, 1000156000⟩ (fun _ => true) (by decide) (by decide)).1⟩

/-- C2 (code bug): with the filled queue of capacity
`filled_img_max_count = 1`, the discard branch of `queue_image` tests
`size_approx() > filled_img_max_count`, a condition that can never hold
(the buffer never holds more than one element), so queuing two
discardable images in rapid succession without an intervening display
does *not* discard one: the first call enqueues and the second call
blocks in `wait_enqueue` — contrary to the comment in the source
("if image is discardable and the filled_img_queue is full") and to the
specified backpressure behaviour. -/
theorem queue_image_discardable_second_call_blocks :
    queue_image sample_state 3 true =
      .done false { sample_state with filled_img_queue := [3] } ∧
    queue_image { sample_state with filled_img_queue := [3] } 4 true =
      .blocked :=
  ⟨rfl, rfl⟩

/-- C3 counterexample: with an empty producer-local list and an empty
available queue (and no concurrent enqueue), `acquire_transfer_image`
blocks in the *unbounded* `wait_dequeue` — it neither performs a merely
bounded wait nor allocates a brand-new transfer image, refuting the
claimed timeout-then-allocate behaviour; `acquire_image` inherits the
block. -/
theorem acquire_transfer_image_blocks_on_empty :
    acquire_transfer_image [] [] = .blocked ∧
    acquire_image true VK_API_VERSION_1_1 sample_state ⟨⟨640, 480⟩, 100⟩ =
      .blocked :=
  ⟨rfl, rfl⟩

/-- C3 amended: `acquire_transfer_image` returns the back of the
producer-local available list when it is non-empty; otherwise it performs
an unbounded blocking dequeue on the cross-thread available queue,
returning its front when non-empty and blocking (with no concurrent
enqueue) exactly when both are empty.  No code path allocates a new
transfer image. -/
theorem acquire_transfer_image_behavior (avail queue : List Nat) :
    (∀ img, avail.getLast? = some img →
      acquire_transfer_image avail queue = .fromLocal img avail.dropLast) ∧
    (avail = [] → ∀ img rest, queue = img :: rest →
      acquire_transfer_image avail queue = .fromQueue img rest) ∧
    (acquire_transfer_image avail queue = .blocked ↔
      avail = [] ∧ queue = []) := by
  refine ⟨?_, ?_, ?_⟩
  · intro img h
    simp [acquire_transfer_image, h]
  · intro h img rest h2
    subst h; subst h2
    simp [acquire_transfer_image]
  · constructor
    · intro h
      have hempty : avail = [] := by
        by_contra hne
        obtain ⟨img, himg⟩ : ∃ img, avail.getLast? = some img := by
          cases havail : avail.getLast? with
          | none => exact absurd (List.getLast?_eq_none_iff.mp havail) hne
          | some x => exact ⟨x, rfl⟩
        simp [acquire_transfer_image, himg] at h
      subst hempty
      cases hq : queue with
      | nil => exact ⟨rfl, rfl⟩
      | cons b bs =>
        rw [hq] at h
        simp [acquire_transfer_image] at h
    · rintro ⟨h1, h2⟩
      subst h1; subst h2
      rfl

/-- Witness for C3's amended statement: a one-element local list is
served from the back without touching the queue. -/
theorem acquire_transfer_image_behavior_witness :
    [5].getLast? = some 5 ∧
    acquire_transfer_image [5] [9] = .fromLocal 5 [] :=
  ⟨rfl, (acquire_transfer_image_behavior [5] [9]).1 5 rfl⟩

theorem acquire_swapchain_loop_success (polls : Nat → window_parameters)
    (acq : Nat → Nat) (s : DisplayState) (img image_id attempt : Nat)
    (h1 : image_id ≠ swapchain_image_out_of_date)
    (h2 : image_id ≠ swapchain_image_timeout) :
    acquire_swapchain_loop polls acq s img image_id attempt =
      submit_and_present s img := by
  unfold acquire_swapchain_loop
  rw [if_neg]
  simp [h1, h2]

theorem reconfigure_step_swapchain_gen (s : DisplayState)
    (d : image_description) :
    (reconfigure_step s d).swapchain_gen = s.swapchain_gen := by
  unfold reconfigure_step
  split
  · split <;> rfl
  · rfl

theorem reconfigure_step_size_only (s : DisplayState)
    (d : image_description) (hne : d ≠ s.current_image_description)
    (hfmt : d.format = s.current_image_description.format) :
    reconfigure_step s d =
      { s with current_image_description := d,
               area := update_render_area_viewport_scissor s.window_size
                 d.size } := by
  simp [reconfigure_step, hne, hfmt]

theorem reconfigure_step_format_change (s : DisplayState)
    (d : image_description)
    (hfmt : d.format ≠ s.current_image_description.format) :
    reconfigure_step s d =
      { s with wait_idle_count := s.wait_idle_count + 1,
               sampler_gen := s.sampler_gen + 1,
               descriptor_set_layout_gen := s.descriptor_set_layout_gen + 1,
               pipeline_gen := s.pipeline_gen + 1,
               descriptor_sets_gen := s.descriptor_sets_gen + 1,
               current_image_description := d,
               area := update_render_area_viewport_scissor s.window_size
                 d.size } := by
  have hne : d ≠ s.current_image_description := fun h => hfmt (by rw [h])
  simp [reconfigure_step, hne, hfmt]

theorem display_queued_image_run (polls : Nat → window_parameters)
    (acq : Nat → Nat) (s : DisplayState) (img : Nat) (rest : List Nat)
    (hq : s.filled_img_queue = img :: rest)
    (hmin : (polls 0).is_minimized = false) :
    display_queued_image polls acq s =
      acquire_swapchain_loop polls acq
        (reconfigure_step { s with filled_img_queue := rest }
          (s.descriptions img)) img (acq 0) 0 := by
  unfold display_queued_image
  rw [hq]
  simp [hmin]

/-- C1 counterexample: after a successful display cycle the transfer
image (7) sits in the available queue while its completion fence is
*not* signaled (it was reset just before submission and the GPU has not
signaled it): `display_queued_image` enqueues the image into the
available queue immediately after present, before the fence signals, so
the claimed "never returned to the available-queue before its completion
fence has signaled" fails on the code. -/
theorem display_enqueues_available_before_fence_signals :
    (display_queued_image (fun _ => ⟨1920, 1080⟩) (fun _ => 0) c1_state).1 =
      .displayed ∧
    (display_queued_image (fun _ => ⟨1920, 1080⟩) (fun _ => 0)
      c1_state).2.available_img_queue = [7] ∧
    (display_queued_image (fun _ => ⟨1920, 1080⟩) (fun _ => 0)
      c1_state).2.fence_signaled = [] ∧
    (display_queued_image (fun _ => ⟨1920, 1080⟩) (fun _ => 0)
      c1_state).2.fence_set = [7] := by
  have hrun := display_queued_image_run (fun _ => ⟨1920, 1080⟩)
    (fun _ => 0) c1_state 7 [] rfl rfl
  rw [acquire_swapchain_loop_success _ _ _ _ _ _ (by decide) (by decide)]
    at hrun
  rw [hrun]
  exact ⟨rfl, rfl, rfl, rfl⟩

theorem acquire_image_finish_fence (s : DisplayState) (img : Nat)
    (d : image_description) (img' : Nat) (s' : DisplayState)
    (h : acquire_image_finish s img d = .ok img' s') :
    img' = img ∧ (img ∈ s.fence_set → img' ∈ s'.fence_signaled) := by
  simp only [acquire_image_finish, AcquireOutcome.ok.injEq] at h
  obtain ⟨h1, h2⟩ := h
  subst h1
  subst h2
  refine ⟨rfl, fun hset => ?_⟩
  simp only [apply_ite DisplayState.fence_signaled, ite_self, if_pos hset]
  split
  · next hmem => exact hmem
  · exact List.mem_cons_self _ _

/-- C1 amended: an image may reach the available queue before its fence
signals; mutual exclusion is instead enforced in `acquire_image`, which —
whenever the acquired image's `fence_set` flag is raised — blocks in
`waitForFences` until the completion fence has signaled before handing
the image to the producer, so the producer never writes an image the GPU
may still be reading. -/
theorem acquire_image_waits_for_pending_fence (yCbCr_supported : Bool)
    (vulkan_version : Nat) (s : DisplayState) (d : image_description)
    (img : Nat) (s' : DisplayState)
    (h : acquire_image yCbCr_supported vulkan_version s d = .ok img s')
    (hset : img ∈ s.fence_set) :
    img ∈ s'.fence_signaled := by
  unfold acquire_image at h
  split at h
  · simp at h
  · split at h
    · simp at h
    · split at h
      · simp at h
      · next img2 rest heq =>
        obtain ⟨h1, h2⟩ := acquire_image_finish_fence _ _ _ _ _ h
        subst h1
        exact h2 hset
      · next img2 rest heq =>
        obtain ⟨h1, h2⟩ := acquire_image_finish_fence _ _ _ _ _ h
        subst h1
        exact h2 hset

/-- Witness for C1's amended statement: acquiring image 5 (whose
`fence_set` is raised) waits out its fence, so the state handed back has
the fence signaled. -/
theorem acquire_image_waits_for_pending_fence_witness :
    acquire_image true VK_API_VERSION_1_1 c1w_state ⟨⟨640, 480⟩, 100⟩ =
      .ok 5 c1w_post ∧
    5 ∈ c1w_state.fence_set ∧ 5 ∈ c1w_post.fence_signaled :=
  ⟨rfl, by decide,
    acquire_image_waits_for_pending_fence true VK_API_VERSION_1_1 c1w_state
      ⟨⟨640, 480⟩, 100⟩ 5 c1w_post rfl (by decide)⟩

/-- C4: when the dequeued image's description differs from
`current_image_description` only in size (same format),
`display_queued_image` leaves the sampler, descriptor-set layout,
pipeline and descriptor sets untouched (and performs no queue wait-idle),
only recomputing the render area and updating the current description;
when the format differs, it waits for the queue to go idle and rebuilds
all four. -/
theorem display_format_change_vs_size_change
    (polls : Nat → window_parameters) (acq : Nat → Nat) (s : DisplayState)
    (img : Nat) (rest : List Nat)
    (hq : s.filled_img_queue = img :: rest)
    (hmin : (polls 0).is_minimized = false)
    (hok1 : acq 0 ≠ swapchain_image_out_of_date)
    (hok2 : acq 0 ≠ swapchain_image_timeout) :
    (s.descriptions img ≠ s.current_image_description →
      (s.descriptions img).format = s.current_image_description.format →
      ((display_queued_image polls acq s).2.sampler_gen = s.sampler_gen ∧
       (display_queued_image polls acq s).2.descriptor_set_layout_gen =
         s.descriptor_set_layout_gen ∧
       (display_queued_image polls acq s).2.pipeline_gen = s.pipeline_gen ∧
       (display_queued_image polls acq s).2.descriptor_sets_gen =
         s.descriptor_sets_gen ∧
       (display_queued_image polls acq s).2.wait_idle_count =
         s.wait_idle_count ∧
       (display_queued_image polls acq s).2.area =
         update_render_area_viewport_scissor s.window_size
           (s.descriptions img).size ∧
       (display_queued_image polls acq s).2.current_image_description =
         s.descriptions img)) ∧
    ((s.descriptions img).format ≠ s.current_image_description.format →
      ((display_queued_image polls acq s).2.sampler_gen =
         s.sampler_gen + 1 ∧
       (display_queued_image polls acq s).2.descriptor_set_layout_gen =
         s.descriptor_set_layout_gen + 1 ∧
       (display_queued_image polls acq s).2.pipeline_gen =
         s.pipeline_gen + 1 ∧
       (display_queued_image polls acq s).2.descriptor_sets_gen =
         s.descriptor_sets_gen + 1 ∧
       (display_queued_image polls acq s).2.wait_idle_count =
         s.wait_idle_count + 1 ∧
       (display_queued_image polls acq s).2.area =
         update_render_area_viewport_scissor s.window_size
           (s.descriptions img).size ∧
       (display_queued_image polls acq s).2.current_image_description =
         s.descriptions img)) := by
  have hrun := display_queued_image_run polls acq s img rest hq hmin
  rw [acquire_swapchain_loop_success polls acq _ img (acq 0) 0 hok1 hok2]
    at hrun
  constructor
  · intro hne hfmt
    rw [hrun,
      reconfigure_step_size_only { s with filled_img_queue := rest }
        (s.descriptions img) hne hfmt]
    exact ⟨rfl, rfl, rfl, rfl, rfl, rfl, rfl⟩
  · intro hfmt
    rw [hrun,
      reconfigure_step_format_change { s with filled_img_queue := rest }
        (s.descriptions img) hfmt]
    exact ⟨rfl, rfl, rfl, rfl, rfl, rfl, rfl⟩

/-- Witness for C4: a 1280×720 frame over a 640×480 current description
(same format 100) leaves the pipeline generation unchanged across the
display. -/
theorem display_format_change_vs_size_change_witness :
    c4_state.filled_img_queue = 2 :: [] ∧
    (display_queued_image (fun _ => ⟨1920, 1080⟩) (fun _ => 0)
      c4_state).2.pipeline_gen = c4_state.pipeline_gen :=
  ⟨rfl,
    ((display_format_change_vs_size_change (fun _ => ⟨1920, 1080⟩)
      (fun _ => 0) c4_state 2 [] rfl rfl (by decide) (by decide)).1
      (by decide) rfl).2.2.1⟩

theorem acquire_swapchain_loop_fail_final (polls : Nat → window_parameters)
    (acq : Nat → Nat) (s : DisplayState) (img image_id attempt : Nat)
    (hid : image_id = swapchain_image_out_of_date ∨
      image_id = swapchain_image_timeout)
    (hb : 3 < attempt + 1) :
    acquire_swapchain_loop polls acq s img image_id attempt =
      (.fatalError "Cannot acquire swapchain image", s) := by
  conv_lhs => rw [acquire_swapchain_loop.eq_def]
  rw [if_pos hid, dif_pos hb]

theorem acquire_swapchain_loop_fail_step (polls : Nat → window_parameters)
    (acq : Nat → Nat) (s : DisplayState) (img image_id attempt : Nat)
    (hid : image_id = swapchain_image_out_of_date ∨
      image_id = swapchain_image_timeout)
    (hb : ¬ 3 < attempt + 1)
    (hm : (polls (attempt + 1)).is_minimized = false) :
    acquire_swapchain_loop polls acq s img image_id attempt =
    acquire_swapchain_loop polls acq
      (recreate_and_update s (polls (attempt + 1))) img (acq (attempt + 1))
      (attempt + 1) := by
  conv_lhs => rw [acquire_swapchain_loop.eq_def]
  rw [if_pos hid, dif_neg hb]
  simp [hm]

theorem acquire_swapchain_loop_all_fail (polls : Nat → window_parameters)
    (acq : Nat → Nat) (img : Nat)
    (hmin : ∀ k, (polls k).is_minimized = false)
    (hfail : ∀ k, acq k = swapchain_image_out_of_date ∨
      acq k = swapchain_image_timeout) :
    ∀ n attempt s image_id, attempt + n = 3 →
      image_id = swapchain_image_out_of_date ∨
        image_id = swapchain_image_timeout →
      (acquire_swapchain_loop polls acq s img image_id attempt).1 =
        .fatalError "Cannot acquire swapchain image" ∧
      (acquire_swapchain_loop polls acq s img image_id
        attempt).2.swapchain_gen = s.swapchain_gen + n := by
  intro n
  induction n with
  | zero =>
    intro attempt s image_id h hid
    rw [acquire_swapchain_loop_fail_final polls acq s img image_id attempt
      hid (by omega)]
    exact ⟨rfl, rfl⟩
  | succ k ih =>
    intro attempt s image_id h hid
    rw [acquire_swapchain_loop_fail_step polls acq s img image_id attempt
      hid (by omega) (hmin (attempt + 1))]
    have hrec := ih (attempt + 1)
      (recreate_and_update s (polls (attempt + 1))) (acq (attempt + 1))
      (by omega) (hfail (attempt + 1))
    refine ⟨hrec.1, ?_⟩
    rw [hrec.2]
    have hgen : (recreate_and_update s (polls (attempt + 1))).swapchain_gen
        = s.swapchain_gen + 1 := rfl
    omega

/-- C5: if every swapchain acquisition of the cycle reports a sentinel —
the out-of-date sentinel or the timeout sentinel, in any mixture — and
the window never minimizes, `display_queued_image` throws
`"Cannot acquire swapchain image"` after exactly 3 swapchain recreation
attempts; the loop is bounded by the attempt counter — the model is a
total function, so it can never loop indefinitely. -/
theorem swapchain_retry_fatal_after_three
    (polls : Nat → window_parameters) (acq : Nat → Nat) (s : DisplayState)
    (img : Nat) (rest : List Nat)
    (hq : s.filled_img_queue = img :: rest)
    (hmin : ∀ k, (polls k).is_minimized = false)
    (hfail : ∀ k, acq k = swapchain_image_out_of_date ∨
      acq k = swapchain_image_timeout) :
    (display_queued_image polls acq s).1 =
      .fatalError "Cannot acquire swapchain image" ∧
    (display_queued_image polls acq s).2.swapchain_gen =
      s.swapchain_gen + 3 := by
  rw [display_queued_image_run polls acq s img rest hq (hmin 0)]
  have h := acquire_swapchain_loop_all_fail polls acq img hmin hfail 3 0
    (reconfigure_step { s with filled_img_queue := rest }
      (s.descriptions img)) (acq 0) (by omega) (hfail 0)
  refine ⟨h.1, ?_⟩
  rw [h.2, reconfigure_step_swapchain_gen]

/-- Witness for C5: with every acquisition hitting the timeout sentinel,
the displayed frame 7 ends in the fatal error. -/
theorem swapchain_retry_fatal_after_three_witness :
    c1_state.filled_img_queue = 7 :: [] ∧
    (display_queued_image (fun _ => ⟨1920, 1080⟩)
      (fun _ => 4294967294) c1_state).1 =
      .fatalError "Cannot acquire swapchain image" :=
  ⟨rfl,
    (swapchain_retry_fatal_after_three (fun _ => ⟨1920, 1080⟩)
      (fun _ => 4294967294) c1_state 7 [] rfl (fun _ => rfl)
      (fun _ => Or.inr rfl)).1⟩

end VulkanDisplay
